import Mathlib

/-!
Verification development for the `chess_data_analytics` core
(`src/chess_data_analytics/parser.py` and `src/chess_data_analytics/analytics.py`).

The parser works over two inputs: the raw page markup (regex extraction of the
embedded `userDetails` JSON and the embedded PGN) and a BeautifulSoup document
(CSS-selector queries).  We embed it over a parsed-document abstraction
(`Doc`): each field of `Doc` records the result of one of the selector queries
or regex extractions that `parse_game_review_page` performs, and everything
the Python code does with those results (string stripping, `int()`/`float()`
parsing, substring tests, truthiness, `or` defaults, exception flow) is
translated into Lean from the source.

Modelling conventions, stated once:
* Python `int`/`float` are modelled as `Int`/`ℚ` (Python ints are unbounded;
  the parsed decimal literals here are exact in binary-irrelevant positions,
  and no claim exercises float rounding corners, `inf`, `nan`, underscore
  digit separators, or non-ASCII digits, which are outside the model).
* JSON values decoded by `json.loads` are modelled by the inductive `JVal`;
  Python `None` and JSON `null` are both `JVal.jnull`.
* Exceptions are modelled by `Except PyErr`; the only statements that can
  raise in `parse_game_review_page` are the `unicode_escape` decode in
  `_extract_user_details` (which is outside that function's `try`) and the
  `user_details.get(...)` calls on a non-dict value.
-/

namespace ChessData

/-- Python whitespace test used by `str.strip()` and by the regex class `\s`
(ASCII part: space, tab, newline, carriage return, vertical tab, form feed). -/
def pyIsSpace (c : Char) : Bool :=
  c == ' ' || c == '\t' || c == '\n' || c == '\r' || c == '\x0b' || c == '\x0c'

/-- Python `str.strip()` on a character list. -/
def stripL (cs : List Char) : List Char :=
  ((cs.dropWhile pyIsSpace).reverse.dropWhile pyIsSpace).reverse

/-- Numeric value of a digit run (most significant first). -/
def digitsToNat (ds : List Char) : Nat :=
  ds.foldl (fun a c => a * 10 + (c.toNat - 48)) 0

/-- Value of a nonempty all-digit run, `none` otherwise. -/
def pyIntCore (ds : List Char) : Option Nat :=
  if !ds.isEmpty && ds.all Char.isDigit then some (digitsToNat ds) else none

/-- Python `int(s)` on a string: surrounding whitespace stripped, optional
sign, then a nonempty digit run; `none` models `ValueError`. -/
def pyIntParseL (cs : List Char) : Option Int :=
  match stripL cs with
  | [] => none
  | c :: ds =>
    if c = '-' then (pyIntCore ds).map (fun m => -(Int.ofNat m))
    else if c = '+' then (pyIntCore ds).map Int.ofNat
    else (pyIntCore (c :: ds)).map Int.ofNat

/-- The parser's `_safe_int`: `None` or unparseable text gives 0. -/
def pySafeInt (t : Option String) : Int :=
  match t with
  | none => 0
  | some s =>
    match pyIntParseL s.toList with
    | some n => n
    | none => 0

/-- Python `float(s)`: stripped, optional sign, `digits [. digits]` or
`. digits`, optional exponent; `none` models `ValueError`. -/
def pyFloatParseL (cs : List Char) : Option ℚ :=
  let t := stripL cs
  let sgnBody : ℚ × List Char :=
    match t with
    | '-' :: r => (-1, r)
    | '+' :: r => (1, r)
    | _ => (1, t)
  let sgn := sgnBody.1
  let ipSplit := sgnBody.2.span Char.isDigit
  let body : Option (ℚ × List Char) :=
    match ipSplit.2 with
    | '.' :: r2 =>
      let fpSplit := r2.span Char.isDigit
      if ipSplit.1.isEmpty && fpSplit.1.isEmpty then none
      else some ((digitsToNat ipSplit.1 : ℚ) +
                 (digitsToNat fpSplit.1 : ℚ) / ((10 : ℚ) ^ fpSplit.1.length), fpSplit.2)
    | _ => if ipSplit.1.isEmpty then none else some ((digitsToNat ipSplit.1 : ℚ), ipSplit.2)
  match body with
  | none => none
  | some (v, r3) =>
    match r3 with
    | [] => some (sgn * v)
    | c :: rest =>
      if c == 'e' || c == 'E' then
        match rest with
        | '-' :: r4 =>
          let p := r4.span Char.isDigit
          if p.1.isEmpty || !p.2.isEmpty then none
          else some (sgn * v / ((10 : ℚ) ^ digitsToNat p.1))
        | '+' :: r4 =>
          let p := r4.span Char.isDigit
          if p.1.isEmpty || !p.2.isEmpty then none
          else some (sgn * v * ((10 : ℚ) ^ digitsToNat p.1))
        | _ =>
          let p := rest.span Char.isDigit
          if p.1.isEmpty || !p.2.isEmpty then none
          else some (sgn * v * ((10 : ℚ) ^ digitsToNat p.1))
      else none

/-- The parser's `_safe_float`: `None` or unparseable text gives 0.0. -/
def pySafeFloat (t : Option String) : ℚ :=
  match t with
  | none => 0
  | some s =>
    match pyFloatParseL s.toList with
    | some q => q
    | none => 0

/-- Substring containment, Python's `pat in s`. -/
def containsSub (pat : List Char) : List Char → Bool
  | [] => pat.isEmpty
  | c :: rest => pat.isPrefixOf (c :: rest) || containsSub pat rest

/-- String-level substring containment. -/
def containsStr (pat s : String) : Bool := containsSub pat.toList s.toList

/-- Python `s.replace("\\/", "/")` (left-to-right, non-overlapping). -/
def replEsc : List Char → List Char
  | '\\' :: '/' :: rest => '/' :: replEsc rest
  | c :: rest => c :: replEsc rest
  | [] => []

/-- The segment of `s` after its last `'-'` (the whole of `s` when there is
no dash): Python `s.split("-")[-1]`. -/
def lastDashSeg (cs : List Char) : List Char :=
  cs.foldl (fun acc c => if c = '-' then [] else acc ++ [c]) []

/-- Matcher for the regex `\[<tag>\s+"(<seek>+)"\]` anchored at the start of
`cs`; `seek` is `[^"]` for the `Result` tag and `\d` for the Elo tags.
Returns the captured group. -/
def matchTagAt (seek : Char → Bool) (tag : List Char) (cs : List Char) : Option (List Char) :=
  if ('[' :: tag).isPrefixOf cs then
    let r1 := cs.drop (tag.length + 1)
    match r1 with
    | c :: r2 =>
      if pyIsSpace c then
        match r2.dropWhile pyIsSpace with
        | '"' :: r3 =>
          let p := r3.span seek
          if p.1.isEmpty then none
          else match p.2 with
            | '"' :: ']' :: _ => some p.1
            | _ => none
        | _ => none
      else none
    | [] => none
  else none

/-- Leftmost search for `matchTagAt`, the behaviour of `re.search`. -/
def searchTagVal (seek : Char → Bool) (tag : List Char) : List Char → Option (List Char)
  | [] => none
  | c :: rest =>
    match matchTagAt seek tag (c :: rest) with
    | some v => some v
    | none => searchTagVal seek tag rest

/-- Character class `[^"]` of the `Result`-tag value. -/
def resultSeek (c : Char) : Bool := !(c == '"')

/-- The closed set of accepted PGN result symbols (parser.py line 42/71). -/
def fourResults : List String := ["1-0", "0-1", "1/2-1/2", "*"]

/-- Normalization applied to an extracted `Result` tag value
(parser.py lines 41-43 and 70-72): strip, `\/` → `/`, then accept only the
four canonical symbols, else empty string. -/
def pgnResultNorm (v : String) : String :=
  if fourResults.contains (String.mk (replEsc (stripL v.toList))) then
    String.mk (replEsc (stripL v.toList))
  else ""

/-- Result of `parse_pgn_text` (dict with keys result, white_rating,
black_rating). -/
structure PgnData where
  result : String
  white_rating : Int
  black_rating : Int
deriving DecidableEq

/-- Embedding of `parse_pgn_text` (parser.py lines 33-54). -/
def parse_pgn_text (pgn : String) : PgnData :=
  let result :=
    match searchTagVal resultSeek "Result".toList pgn.toList with
    | some v => pgnResultNorm (String.mk v)
    | none => ""
  let white_rating :=
    match searchTagVal Char.isDigit "WhiteElo".toList pgn.toList with
    | some ds => pySafeInt (some (String.mk ds))
    | none => 0
  let black_rating :=
    match searchTagVal Char.isDigit "BlackElo".toList pgn.toList with
    | some ds => pySafeInt (some (String.mk ds))
    | none => 0
  { result := result, white_rating := white_rating, black_rating := black_rating }

/-- JSON values as produced by `json.loads`; `jnull` also stands for Python
`None`.  Integral JSON numbers are `jint`, other numbers `jnum`. -/
inductive JVal where
  | jnull
  | jbool (b : Bool)
  | jint (n : Int)
  | jnum (q : ℚ)
  | jstr (s : String)
  | jarr (size : Nat)
  | jobj (fields : List (String × JVal))

/-- Python truthiness of a decoded JSON value. -/
def jTruthy : JVal → Bool
  | .jnull => false
  | .jbool b => b
  | .jint n => !(n == 0)
  | .jnum q => !(q == 0)
  | .jstr s => !(s == "")
  | .jarr size => !(size == 0)
  | .jobj fs => !fs.isEmpty

/-- Lookup in a decoded JSON object; `json.loads` keeps the last binding of a
duplicated key, which this mirrors. -/
def jGetLast (fs : List (String × JVal)) (k : String) : Option JVal :=
  fs.foldl (fun acc p => if p.1 = k then some p.2 else acc) none

/-- Exceptions that can escape `parse_game_review_page`: the `unicode_escape`
decode in `_extract_user_details` (outside its `try`), and `.get` called on a
non-dict `json.loads` result. -/
inductive PyErr where
  | unicodeDecodeError
  | attributeError
deriving DecidableEq

/-- Outcome of the `userDetails` regex + `unicode_escape` + `json.loads`
pipeline of `_extract_user_details` for a given markup string. -/
inductive UDSource where
  | absent
  | decodeFailure
  | invalidJson
  | parsed (v : JVal)

/-- Embedding of `_extract_user_details` (parser.py lines 76-95): no regex
match or a `json.loads` failure give `{}`; a `unicode_escape` failure raises
(it is outside the `try` block); otherwise the decoded value is returned. -/
def extractUserDetails : UDSource → Except PyErr JVal
  | .absent => .ok (.jobj [])
  | .invalidJson => .ok (.jobj [])
  | .decodeFailure => .error .unicodeDecodeError
  | .parsed v => .ok v

/-- An element matched by `select("[data-cy^='review-rating-']")`:
its `data-cy` attribute and its class list. -/
structure RatingElem where
  data_cy : String
  classes : List String

/-- An element of `select(".game-overview-row")`: presence/text of its
`.game-overview-row-title`, texts of the per-color rating and accuracy span
sub-elements (via `select_one`, `none` when absent), and the stripped texts
of its `.game-overview-row-item` children in document order. -/
structure OverviewRow where
  title : Option String
  ratingWhiteSpan : Option String
  ratingBlackSpan : Option String
  accWhiteSpan : Option String
  accBlackSpan : Option String
  items : List String

/-- An element of
`select("[data-cy^='review-accuracy-'], [data-cy^='game-review-accuracy-']")`. -/
structure AccElem where
  data_cy : String
  classes : List String
  spanText : Option String

/-- Parsed-document abstraction: the results of every query
`parse_game_review_page` performs against the markup.  `topUser`/`bottomUser`
are `none` when the player panel is absent, `some none` when the panel exists
but its username element is absent, and `some (some s)` for username text
`s` (with `get_text(strip=True)` applied).  `tallySel` maps a `data-cy`
attribute value to the text of the unique element carrying it, if any.
`pgnText` is `none` when the `pgn:` regex does not match, `some none` when
the `unicode_escape` decode of the match raises (caught, inside `try`), and
`some (some s)` for the decoded PGN text `s`. -/
structure Doc where
  userDetailsSrc : UDSource
  topUser : Option (Option String)
  bottomUser : Option (Option String)
  ratingElems : List RatingElem
  overviewRows : List OverviewRow
  accuracyElems : List AccElem
  tallySel : String → Option String
  pgnText : Option (Option String)

/-- The `.get("username")` read: only a dict yields a value, and an absent
key or JSON `null` both come back as Python `None`. -/
def detailUsername : JVal → JVal
  | .jobj g => (jGetLast g "username").getD .jnull
  | _ => .jnull

/-- The DOM fallback for one username (parser.py lines 114-124): triggered
only when the JSON-derived value is falsy; an absent panel leaves the value
unchanged, an absent username element inside the panel gives `None`. -/
def resolveUser (u : JVal) (panel : Option (Option String)) : JVal :=
  if jTruthy u then u
  else
    match panel with
    | none => u
    | some none => .jnull
    | some (some s) => .jstr s

/-- Stage 1 of rating resolution (parser.py lines 131-141): fold over the
attribute-encoded rating elements; `int(data_cy.split("-")[-1])` assigns the
numeric suffix to the color named in the class list, a `ValueError` skips
the element, and a later element overwrites an earlier one. -/
def attrStep (wb : Int × Int) (el : RatingElem) : Int × Int :=
  match pyIntParseL (lastDashSeg el.data_cy.toList) with
  | none => wb
  | some num =>
    if el.classes.contains "review-rating-white" then (num, wb.2)
    else if el.classes.contains "review-rating-black" then (wb.1, num)
    else wb

/-- Stage 1 fold over the attribute-encoded rating elements. -/
def attrStage (elems : List RatingElem) : Int × Int :=
  elems.foldl attrStep (0, 0)

/-- The first overview row whose title element exists and contains
"Game Rating" (parser.py lines 144-146, with the `break`). -/
def gameRatingRow (rows : List OverviewRow) : Option OverviewRow :=
  rows.find? fun row =>
    match row.title with
    | some t => containsStr "Game Rating" t
    | none => false

/-- Stage 2 of rating resolution (parser.py lines 143-153): the "Game
Rating" row is consulted when at least one color's rating is still zero and
fills exactly the colors still zero. -/
def rowStage (rows : List OverviewRow) (wb : Int × Int) : Int × Int :=
  if wb.1 = 0 ∨ wb.2 = 0 then
    match gameRatingRow rows with
    | none => wb
    | some row =>
      (if wb.1 = 0 then pySafeInt row.ratingWhiteSpan else wb.1,
       if wb.2 = 0 then pySafeInt row.ratingBlackSpan else wb.2)
  else wb

/-- Stage 3 of rating resolution for one color (parser.py lines 154-157):
`details.get("gameRating") or 0` when the rating is still zero and the
side's details are a dict. -/
def jsonStage (details : JVal) (cur : Int) : JVal :=
  if cur = 0 then
    match details with
    | .jobj g =>
      let gr := (jGetLast g "gameRating").getD .jnull
      if jTruthy gr then gr else .jint 0
    | _ => .jint cur
  else .jint cur

/-- Python `x or 0` applied when building the returned dict. -/
def orZero (v : JVal) : JVal := if jTruthy v then v else .jint 0

/-- Python `x or ""` applied when building the returned dict. -/
def orEmpty (v : JVal) : JVal := if jTruthy v then v else .jstr ""

/-- The first overview row whose title element exists and contains
"Accuracy" (parser.py lines 162-164, with the `break`). -/
def accuracyRow (rows : List OverviewRow) : Option OverviewRow :=
  rows.find? fun row =>
    match row.title with
    | some t => containsStr "Accuracy" t
    | none => false

/-- The white color-specific accuracy read of one row (parser.py lines
165-168): absent sub-element leaves the value 0. -/
def rowAccW (row : OverviewRow) : ℚ :=
  match row.accWhiteSpan with
  | some t => pySafeFloat (some t)
  | none => 0

/-- The black color-specific accuracy read of one row (parser.py lines
166-170). -/
def rowAccB (row : OverviewRow) : ℚ :=
  match row.accBlackSpan with
  | some t => pySafeFloat (some t)
  | none => 0

/-- Accuracy from the labeled overview row (parser.py lines 160-176):
per-color span texts first; when both parse to zero and the row has at least
two generic items, the first item is white and the second black. -/
def accRowStage (rows : List OverviewRow) : ℚ × ℚ :=
  match accuracyRow rows with
  | none => (0, 0)
  | some row =>
    let w := rowAccW row
    let b := rowAccB row
    if w = 0 ∧ b = 0 then
      match row.items with
      | i0 :: i1 :: _ => (pySafeFloat (some i0), pySafeFloat (some i1))
      | _ => (w, b)
    else (w, b)

/-- One step of the data-cy accuracy scan (parser.py lines 178-191). -/
def accScanStep (wb : ℚ × ℚ) (el : AccElem) : ℚ × ℚ :=
  let val : ℚ := match el.spanText with
    | some t => pySafeFloat (some t)
    | none => 0
  let val := if val = 0 ∧ el.data_cy ≠ "" then
      match pyIntParseL (lastDashSeg el.data_cy.toList) with
      | some n => (n : ℚ) / 10
      | none => val
    else val
  if containsStr "white" el.data_cy ||
      el.classes.any (fun c => containsStr "review-accuracy-white" c) then
    (val, wb.2)
  else if containsStr "black" el.data_cy ||
      el.classes.any (fun c => containsStr "review-accuracy-black" c) then
    (wb.1, val)
  else wb

/-- The data-cy accuracy scan, entered only when both accuracies are still
zero (parser.py line 177). -/
def accScanStage (elems : List AccElem) (wb : ℚ × ℚ) : ℚ × ℚ :=
  if wb.1 = 0 ∧ wb.2 = 0 then elems.foldl accScanStep wb else wb

/-- The ten tally-category tokens of parser.py lines 195-206. -/
def tallyTypes : List String :=
  ["Brilliant", "GreatFind", "Book", "BestMove", "Excellent",
   "Good", "Inaccuracy", "Mistake", "Miss", "Blunder"]

/-- One tally read (parser.py lines 207-211). -/
def tallyOf (d : Doc) (ty color : String) : Int :=
  pySafeInt (d.tallySel ("game-review-tallies-number-" ++ ty ++ "-" ++ color))

/-- Embedding of `_extract_pgn_result` (parser.py lines 57-73) given the
extracted-and-decoded PGN script text. -/
def docResult (d : Doc) : String :=
  match d.pgnText with
  | some (some p) =>
    match searchTagVal resultSeek "Result".toList p.toList with
    | some v => pgnResultNorm (String.mk v)
    | none => ""
  | _ => ""

/-- The record built by `parse_game_review_page`; field names follow the
returned dict's keys.  Username and rating fields are `JVal` because the
Python code stores whatever truthy value the embedded JSON supplied. -/
structure ReviewRecord where
  game_id : String
  white_username : JVal
  black_username : JVal
  white_rating : JVal
  black_rating : JVal
  white_accuracy : ℚ
  black_accuracy : ℚ
  result : String
  Brilliant_white : Int
  Brilliant_black : Int
  GreatFind_white : Int
  GreatFind_black : Int
  Book_white : Int
  Book_black : Int
  BestMove_white : Int
  BestMove_black : Int
  Excellent_white : Int
  Excellent_black : Int
  Good_white : Int
  Good_black : Int
  Inaccuracy_white : Int
  Inaccuracy_black : Int
  Mistake_white : Int
  Mistake_black : Int
  Miss_white : Int
  Miss_black : Int
  Blunder_white : Int
  Blunder_black : Int

/-- The pure tail of `parse_game_review_page` once `user_details` resolved
to a dict with fields `fs` (no further statement can raise). -/
def buildRecord (d : Doc) (gid : String) (fs : List (String × JVal)) : ReviewRecord :=
  let white_details := (jGetLast fs "white").getD (.jobj [])
  let black_details := (jGetLast fs "black").getD (.jobj [])
  let white_username := resolveUser (detailUsername white_details) d.topUser
  let black_username := resolveUser (detailUsername black_details) d.bottomUser
  let wbAttr := attrStage d.ratingElems
  let wbRow := rowStage d.overviewRows wbAttr
  let white_rating := jsonStage white_details wbRow.1
  let black_rating := jsonStage black_details wbRow.2
  let wbAcc := accScanStage d.accuracyElems (accRowStage d.overviewRows)
  { game_id := gid
    white_username := orEmpty white_username
    black_username := orEmpty black_username
    white_rating := orZero white_rating
    black_rating := orZero black_rating
    white_accuracy := wbAcc.1
    black_accuracy := wbAcc.2
    result := docResult d
    Brilliant_white := tallyOf d "Brilliant" "white"
    Brilliant_black := tallyOf d "Brilliant" "black"
    GreatFind_white := tallyOf d "GreatFind" "white"
    GreatFind_black := tallyOf d "GreatFind" "black"
    Book_white := tallyOf d "Book" "white"
    Book_black := tallyOf d "Book" "black"
    BestMove_white := tallyOf d "BestMove" "white"
    BestMove_black := tallyOf d "BestMove" "black"
    Excellent_white := tallyOf d "Excellent" "white"
    Excellent_black := tallyOf d "Excellent" "black"
    Good_white := tallyOf d "Good" "white"
    Good_black := tallyOf d "Good" "black"
    Inaccuracy_white := tallyOf d "Inaccuracy" "white"
    Inaccuracy_black := tallyOf d "Inaccuracy" "black"
    Mistake_white := tallyOf d "Mistake" "white"
    Mistake_black := tallyOf d "Mistake" "black"
    Miss_white := tallyOf d "Miss" "white"
    Miss_black := tallyOf d "Miss" "black"
    Blunder_white := tallyOf d "Blunder" "white"
    Blunder_black := tallyOf d "Blunder" "black" }

/-- Embedding of `parse_game_review_page` (parser.py lines 98-225).
`user_details.get("white", {})` raises `AttributeError` when `json.loads`
returned a non-dict value; afterwards no statement can raise. -/
def parse_game_review_page (d : Doc) (gid : String) : Except PyErr ReviewRecord :=
  match extractUserDetails d.userDetailsSrc with
  | .error e => .error e
  | .ok user_details =>
    match user_details with
    | .jobj fs => .ok (buildRecord d gid fs)
    | _ => .error .attributeError

/-- A markup string in which no recognized selector and no recognized regex
matches anything. -/
def emptyDoc : Doc where
  userDetailsSrc := .absent
  topUser := none
  bottomUser := none
  ratingElems := []
  overviewRows := []
  accuracyElems := []
  tallySel := fun _ => none
  pgnText := none

/-- The all-defaults record that an unrecognizable markup produces. -/
def emptyReviewRecord (gid : String) : ReviewRecord where
  game_id := gid
  white_username := .jstr ""
  black_username := .jstr ""
  white_rating := .jint 0
  black_rating := .jint 0
  white_accuracy := 0
  black_accuracy := 0
  result := ""
  Brilliant_white := 0
  Brilliant_black := 0
  GreatFind_white := 0
  GreatFind_black := 0
  Book_white := 0
  Book_black := 0
  BestMove_white := 0
  BestMove_black := 0
  Excellent_white := 0
  Excellent_black := 0
  Good_white := 0
  Good_black := 0
  Inaccuracy_white := 0
  Inaccuracy_black := 0
  Mistake_white := 0
  Mistake_black := 0
  Miss_white := 0
  Miss_black := 0
  Blunder_white := 0
  Blunder_black := 0

/-! Analytics (analytics.py).  `get_player_stats` and `get_season_summary`
are SQL queries over the `games` table; we embed their semantics over a list
of stored rows.  SQLite `REAL` is modelled as `ℚ` and `ROUND(x, d)` as exact
rounding half away from zero (float representation corners are outside the
model; no claim exercises them). -/

/-- A stored row of the `games` table (database.py schema). -/
structure GameRow where
  game_id : String
  white_username : String
  black_username : String
  white_rating : Int
  black_rating : Int
  brilliant_white : Int
  brilliant_black : Int
  great_white : Int
  great_black : Int
  book_white : Int
  book_black : Int
  best_white : Int
  best_black : Int
  excellent_white : Int
  excellent_black : Int
  good_white : Int
  good_black : Int
  inaccuracy_white : Int
  inaccuracy_black : Int
  mistake_white : Int
  mistake_black : Int
  miss_white : Int
  miss_black : Int
  blunder_white : Int
  blunder_black : Int
  accuracy_white : ℚ
  accuracy_black : ℚ
  result : String
deriving DecidableEq

/-- A row of the `player_games` CTE of `get_player_stats`. -/
structure PGRow where
  username : String
  rating : Int
  accuracy : ℚ
  win : Int
  loss : Int
  draw : Int
  brilliant : Int
  great : Int
  book : Int
  best : Int
  excellent : Int
  good : Int
  inaccuracy : Int
  mistake : Int
  miss : Int
  blunder : Int
deriving DecidableEq

/-- The white-side branch of the CTE's `UNION ALL` (analytics.py lines
16-26). -/
def toWhiteRow (g : GameRow) : PGRow where
  username := g.white_username
  rating := g.white_rating
  accuracy := g.accuracy_white
  win := if g.result = "1-0" then 1 else 0
  loss := if g.result = "0-1" then 1 else 0
  draw := if g.result = "1/2-1/2" then 1 else 0
  brilliant := g.brilliant_white
  great := g.great_white
  book := g.book_white
  best := g.best_white
  excellent := g.excellent_white
  good := g.good_white
  inaccuracy := g.inaccuracy_white
  mistake := g.mistake_white
  miss := g.miss_white
  blunder := g.blunder_white

/-- The black-side branch of the CTE's `UNION ALL` (analytics.py lines
28-37). -/
def toBlackRow (g : GameRow) : PGRow where
  username := g.black_username
  rating := g.black_rating
  accuracy := g.accuracy_black
  win := if g.result = "0-1" then 1 else 0
  loss := if g.result = "1-0" then 1 else 0
  draw := if g.result = "1/2-1/2" then 1 else 0
  brilliant := g.brilliant_black
  great := g.great_black
  book := g.book_black
  best := g.best_black
  excellent := g.excellent_black
  good := g.good_black
  inaccuracy := g.inaccuracy_black
  mistake := g.mistake_black
  miss := g.miss_black
  blunder := g.blunder_black

/-- The `player_games` CTE: each stored game contributes a white-side row
and a black-side row, excluding a side whose username is empty. -/
def playerGamesRows (games : List GameRow) : List PGRow :=
  (games.filter (fun g => !(g.white_username == ""))).map toWhiteRow ++
  (games.filter (fun g => !(g.black_username == ""))).map toBlackRow

/-- Rounding half away from zero to an integer, SQLite's `ROUND`. -/
def roundAway (x : ℚ) : ℤ :=
  if x < 0 then -(⌊-x + 1/2⌋) else ⌊x + 1/2⌋

/-- SQLite `ROUND(x, 1)`. -/
def round1 (x : ℚ) : ℚ := (roundAway (x * 10) : ℚ) / 10

/-- SQLite `ROUND(x, 2)`. -/
def round2 (x : ℚ) : ℚ := (roundAway (x * 100) : ℚ) / 100

/-- One output row of `get_player_stats` as named fields (the SELECT list of
analytics.py lines 39-62).  The three per-game averages are `Option`-valued
because their SQL expressions are `NULL` when `NULLIF(COUNT(*), 0)` is
`NULL`. -/
structure PlayerSummary where
  username : String
  games_played : Int
  wins : Int
  losses : Int
  draws : Int
  avg_rating : Option ℚ
  avg_accuracy : Option ℚ
  total_brilliant : Int
  total_great : Int
  total_book : Int
  total_best : Int
  total_excellent : Int
  total_good : Int
  total_inaccuracy : Int
  total_mistake : Int
  total_miss : Int
  total_blunder : Int
  avg_brilliant_per_game : Option ℚ
  avg_great_per_game : Option ℚ
  avg_blunder_per_game : Option ℚ
deriving DecidableEq

/-- Distinct values in first-occurrence order, skipping already-seen keys. -/
def distinctKeysAux : List String → List String → List String
  | [], _ => []
  | u :: rest, seen =>
    if seen.contains u then distinctKeysAux rest seen
    else u :: distinctKeysAux rest (u :: seen)

/-- Distinct values in first-occurrence order: the group keys of
`GROUP BY username`. -/
def distinctKeys (l : List String) : List String := distinctKeysAux l []

/-- The aggregates of one `GROUP BY username` group (analytics.py lines
39-59). -/
def aggregate (rows : List PGRow) (u : String) : PlayerSummary :=
  let rs := rows.filter (fun r => r.username == u)
  let n : Int := rs.length
  { username := u
    games_played := n
    wins := (rs.map (fun r => r.win)).sum
    losses := (rs.map (fun r => r.loss)).sum
    draws := (rs.map (fun r => r.draw)).sum
    avg_rating :=
      if n = 0 then none
      else some (round1 (((rs.map (fun r => (r.rating : ℚ))).sum) / (n : ℚ)))
    avg_accuracy :=
      if n = 0 then none
      else some (round1 (((rs.map (fun r => r.accuracy)).sum) / (n : ℚ)))
    total_brilliant := (rs.map (fun r => r.brilliant)).sum
    total_great := (rs.map (fun r => r.great)).sum
    total_book := (rs.map (fun r => r.book)).sum
    total_best := (rs.map (fun r => r.best)).sum
    total_excellent := (rs.map (fun r => r.excellent)).sum
    total_good := (rs.map (fun r => r.good)).sum
    total_inaccuracy := (rs.map (fun r => r.inaccuracy)).sum
    total_mistake := (rs.map (fun r => r.mistake)).sum
    total_miss := (rs.map (fun r => r.miss)).sum
    total_blunder := (rs.map (fun r => r.blunder)).sum
    avg_brilliant_per_game :=
      if n = 0 then none
      else some (round2 ((((rs.map (fun r => r.brilliant)).sum : Int) : ℚ) / (n : ℚ)))
    avg_great_per_game :=
      if n = 0 then none
      else some (round2 ((((rs.map (fun r => r.great)).sum : Int) : ℚ) / (n : ℚ)))
    avg_blunder_per_game :=
      if n = 0 then none
      else some (round2 ((((rs.map (fun r => r.blunder)).sum : Int) : ℚ) / (n : ℚ))) }

/-- The `ORDER BY total_brilliant DESC, games_played DESC` ordering. -/
def statsOrder (a b : PlayerSummary) : Prop :=
  b.total_brilliant < a.total_brilliant ∨
    (a.total_brilliant = b.total_brilliant ∧ b.games_played ≤ a.games_played)

instance : DecidableRel statsOrder := fun a b => by
  unfold statsOrder; infer_instance

/-- The grouped, aggregated and ordered result of `get_player_stats`
(analytics.py lines 14-63). -/
def playerSummaries (games : List GameRow) : List PlayerSummary :=
  let rows := playerGamesRows games
  List.insertionSort statsOrder
    ((distinctKeys (rows.map (fun r => r.username))).map (aggregate rows))

/-- A SQLite value as surfaced through `sqlite3.Row` / `dict(r)`. -/
inductive SqlVal where
  | null
  | int (n : Int)
  | real (q : ℚ)
  | text (s : String)
deriving DecidableEq

/-- Lift an optional REAL. -/
def optReal : Option ℚ → SqlVal
  | none => .null
  | some q => .real q

/-- One returned dict of `get_player_stats`, keys in SELECT-list order. -/
def summaryRow (e : PlayerSummary) : List (String × SqlVal) :=
  [("username", .text e.username),
   ("games_played", .int e.games_played),
   ("wins", .int e.wins),
   ("losses", .int e.losses),
   ("draws", .int e.draws),
   ("avg_rating", optReal e.avg_rating),
   ("avg_accuracy", optReal e.avg_accuracy),
   ("total_brilliant", .int e.total_brilliant),
   ("total_great", .int e.total_great),
   ("total_book", .int e.total_book),
   ("total_best", .int e.total_best),
   ("total_excellent", .int e.total_excellent),
   ("total_good", .int e.total_good),
   ("total_inaccuracy", .int e.total_inaccuracy),
   ("total_mistake", .int e.total_mistake),
   ("total_miss", .int e.total_miss),
   ("total_blunder", .int e.total_blunder),
   ("avg_brilliant_per_game", optReal e.avg_brilliant_per_game),
   ("avg_great_per_game", optReal e.avg_great_per_game),
   ("avg_blunder_per_game", optReal e.avg_blunder_per_game)]

/-- Embedding of `get_player_stats` (analytics.py lines 7-64): the list of
returned dicts. -/
def get_player_stats (games : List GameRow) : List (List (String × SqlVal)) :=
  (playerSummaries games).map summaryRow

/-- The dict returned by `get_season_summary`. -/
structure SeasonSummary where
  total_games : Int
  unique_players : Int
  total_brilliant_moves : Int
deriving DecidableEq

/-- Embedding of `get_season_summary` (analytics.py lines 67-86). -/
def get_season_summary (games : List GameRow) : SeasonSummary where
  total_games := games.length
  unique_players :=
    (distinctKeys
      ((games.filter (fun g => !(g.white_username == ""))).map (fun g => g.white_username) ++
       (games.filter (fun g => !(g.black_username == ""))).map (fun g => g.black_username))).length
  total_brilliant_moves :=
    (games.map (fun g => g.brilliant_white + g.brilliant_black)).sum

/-! Helper definitions for stating properties of the parser, claim-side
reference definitions, and the concrete inputs used by counterexamples and
witnesses. -/

/-- The JSON-object fields that `user_details` holds in every branch of
`parse_game_review_page` that returns normally. -/
def udObj (d : Doc) : List (String × JVal) :=
  match d.userDetailsSrc with
  | .parsed (.jobj fs) => fs
  | _ => []

/-- The per-side details value, `user_details.get(side, {})`. -/
def sideDetails (d : Doc) (side : String) : JVal :=
  (jGetLast (udObj d) side).getD (.jobj [])

/-- The per-side `gameRating` value as stage 3 would read it (`jnull` when
the side's details are not a dict, in which case stage 3 ignores them). -/
def sideGameRating (d : Doc) (side : String) : JVal :=
  match sideDetails d side with
  | .jobj g => (jGetLast g "gameRating").getD .jnull
  | _ => .jnull

/-- A `gameRating` value that keeps the stored rating a non-negative
integer: either falsy (stage 3 then stores 0) or a non-negative integer. -/
def ratingJsonOk (v : JVal) : Prop :=
  jTruthy v = false ∨ ∃ n : Int, v = .jint n ∧ 0 ≤ n

/-- Claim-side reference for C3, following the claim's words: the "Game
Rating" row is consulted only when BOTH colors' ratings are still zero.
The code instead consults it when at least one is zero. -/
def claimRowStageBoth (rows : List OverviewRow) (wb : Int × Int) : Int × Int :=
  if wb.1 = 0 ∧ wb.2 = 0 then
    match gameRatingRow rows with
    | none => wb
    | some row =>
      (if wb.1 = 0 then pySafeInt row.ratingWhiteSpan else wb.1,
       if wb.2 = 0 then pySafeInt row.ratingBlackSpan else wb.2)
  else wb

/-- Claim-side rating resolution for C3 (attribute stage, then the
both-zero-gated row stage, then the JSON stage, then the final `or 0`). -/
def claimRatings (d : Doc) : JVal × JVal :=
  let wb := claimRowStageBoth d.overviewRows (attrStage d.ratingElems)
  (orZero (jsonStage (sideDetails d "white") wb.1),
   orZero (jsonStage (sideDetails d "black") wb.2))

/-- Claim-side result normalization for C2, following the claim's words:
the four symbols pass through verbatim, the JSON-escaped draw is rewritten,
and every other tag value maps to the empty string. -/
def claimResultNorm (v : String) : String :=
  if fourResults.contains v then v
  else if v = "1\\/2-1\\/2" then "1/2-1/2"
  else ""

/-- The lower-case category names used in the `total_<c>` /
`avg_<c>_per_game` output columns. -/
def categoryNames : List String :=
  ["brilliant", "great", "book", "best", "excellent",
   "good", "inaccuracy", "mistake", "miss", "blunder"]

/-- Document of the markup `userDetails: JSON.parse("5")`: the regex
matches, `json.loads` yields the integer 5, and nothing else matches. -/
def docC1 : Doc := { emptyDoc with userDetailsSrc := .parsed (.jint 5) }

/-- The "Game Rating" overview row used by the C3 counterexample: white
span text "1300", no black span. -/
def rowC3 : OverviewRow where
  title := some "Game Rating"
  ratingWhiteSpan := some "1300"
  ratingBlackSpan := none
  accWhiteSpan := none
  accBlackSpan := none
  items := []

/-- Document for the C3 counterexample: an attribute-encoded black rating
1500, a "Game Rating" row carrying white text 1300, and an embedded JSON
`gameRating` of 999 for white.  Realizable as markup containing
`<div data-cy="review-rating-1500" class="review-rating-black"></div>`,
the corresponding overview row, and a matching `userDetails` script. -/
def docC3 : Doc :=
  { emptyDoc with
    ratingElems := [{ data_cy := "review-rating-1500", classes := ["review-rating-black"] }]
    overviewRows := [rowC3]
    userDetailsSrc := .parsed (.jobj
      [("white", .jobj [("gameRating", .jint 999)]), ("black", .jobj [])]) }

/-- The record `parse_game_review_page` produces on `docC3`. -/
def recC3 : ReviewRecord :=
  { emptyReviewRecord "g" with
    white_rating := .jint 1300
    black_rating := .jint 1500 }

/-- The "Accuracy" overview row used by the C7 witness: no color-specific
sub-elements, two generic items in document order. -/
def rowC7 : OverviewRow where
  title := some "Accuracy"
  ratingWhiteSpan := none
  ratingBlackSpan := none
  accWhiteSpan := none
  accBlackSpan := none
  items := ["76.6", "81.5"]

/-- Document for the C7 witness. -/
def docC7 : Doc := { emptyDoc with overviewRows := [rowC7] }

/-- The record `parse_game_review_page` produces on `docC7`. -/
def recC7 : ReviewRecord :=
  { emptyReviewRecord "g" with
    white_accuracy := pySafeFloat (some "76.6")
    black_accuracy := pySafeFloat (some "81.5") }

/-- Document for the C9 counterexample: the white Brilliant tally element
holds the text "-3" and the embedded JSON white `gameRating` is -5. -/
def docC9 : Doc :=
  { emptyDoc with
    tallySel := fun k =>
      if k = "game-review-tallies-number-Brilliant-white" then some "-3" else none
    userDetailsSrc := .parsed (.jobj [("white", .jobj [("gameRating", .jint (-5))])]) }

/-- The record `parse_game_review_page` produces on `docC9`. -/
def recC9 : ReviewRecord :=
  { emptyReviewRecord "g" with
    Brilliant_white := -3
    white_rating := .jint (-5) }

/-- The PGN string `[Result " 1-0"]`, whose tag value carries leading
whitespace. -/
def pgnWs : String := "[Result \" 1-0\"]"

/-- Game A of the spec's worked example (section 8). -/
def gameA : GameRow where
  game_id := "A"
  white_username := "alice"
  black_username := "bob"
  white_rating := 1300
  black_rating := 1450
  brilliant_white := 0
  brilliant_black := 1
  great_white := 0
  great_black := 0
  book_white := 0
  book_black := 0
  best_white := 0
  best_black := 0
  excellent_white := 0
  excellent_black := 0
  good_white := 0
  good_black := 0
  inaccuracy_white := 0
  inaccuracy_black := 0
  mistake_white := 0
  mistake_black := 0
  miss_white := 0
  miss_black := 0
  blunder_white := 0
  blunder_black := 0
  accuracy_white := 383/5
  accuracy_black := 163/2
  result := "0-1"

/-- Game B of the spec's worked example (section 8). -/
def gameB : GameRow where
  game_id := "B"
  white_username := "bob"
  black_username := "alice"
  white_rating := 1400
  black_rating := 1350
  brilliant_white := 2
  brilliant_black := 0
  great_white := 0
  great_black := 0
  book_white := 0
  book_black := 0
  best_white := 0
  best_black := 0
  excellent_white := 0
  excellent_black := 0
  good_white := 0
  good_black := 0
  inaccuracy_white := 0
  inaccuracy_black := 0
  mistake_white := 0
  mistake_black := 0
  miss_white := 0
  miss_black := 0
  blunder_white := 0
  blunder_black := 0
  accuracy_white := 70
  accuracy_black := 90
  result := "1-0"

/-! Theorems.  Shared helper lemmas come first, then one theorem per claim
(with counterexamples and witnesses where applicable). -/

/-- Every normal return of `parse_game_review_page` is the record built from
the resolved user-details object. -/
theorem parse_ok_eq (d : Doc) (gid : String) (r : ReviewRecord)
    (h : parse_game_review_page d gid = .ok r) :
    r = buildRecord d gid (udObj d) := by
  unfold parse_game_review_page extractUserDetails at h
  unfold udObj
  cases hs : d.userDetailsSrc with
  | absent => rw [hs] at h; simp only [] at h; exact (Except.ok.inj h).symm
  | decodeFailure => rw [hs] at h; exact absurd h (by simp)
  | invalidJson => rw [hs] at h; exact (Except.ok.inj h).symm
  | parsed v =>
    rw [hs] at h
    cases v with
    | jobj fs => exact (Except.ok.inj h).symm
    | jnull => exact absurd h (by simp)
    | jbool b => exact absurd h (by simp)
    | jint n => exact absurd h (by simp)
    | jnum q => exact absurd h (by simp)
    | jstr s => exact absurd h (by simp)
    | jarr size => exact absurd h (by simp)

/-- C1: the claim says `parse_review_page` is total and returns an
all-defaults record on unrecognizable markup.  The defaults half is true
(second conjunct), but totality fails: on the markup
`userDetails: JSON.parse("5")` the code raises `AttributeError`, because
`json.loads` returns the integer 5 and `user_details.get("white", {})` is
called on it (parser.py line 107). -/
theorem c1_totality_violation :
    parse_game_review_page docC1 "g1" = .error .attributeError ∧
    parse_game_review_page emptyDoc "g1" = .ok (emptyReviewRecord "g1") :=
  ⟨rfl, rfl⟩

/-- C8: `get_player_stats` on an empty game set returns an empty list and
`get_season_summary` returns all-zero counts. -/
theorem c8_empty_collections :
    get_player_stats [] = [] ∧
    get_season_summary [] = { total_games := 0, unique_players := 0, total_brilliant_moves := 0 } := by
  constructor
  · simp [get_player_stats, playerSummaries, playerGamesRows, distinctKeys, distinctKeysAux]
  · simp [get_season_summary, distinctKeys, distinctKeysAux]

/-- C10: the returned record carries the `game_id` argument through
unchanged, for every document and every id. -/
theorem c10_game_id (d : Doc) (gid : String) (r : ReviewRecord)
    (h : parse_game_review_page d gid = .ok r) : r.game_id = gid := by
  rw [parse_ok_eq d gid r h]; rfl

/-- Witness for C10 at the empty document. -/
theorem c10_game_id_witness : (emptyReviewRecord "g77").game_id = "g77" :=
  c10_game_id emptyDoc "g77" (emptyReviewRecord "g77") rfl

/-- C2 counterexample: the PGN `[Result " 1-0"]` has the tag value
`" 1-0"`, which is not one of the four symbols nor the JSON-escaped draw,
so the claim says it must normalize to the empty string; the code strips it
and stores `"1-0"`. -/
theorem c2_counterexample :
    (parse_pgn_text pgnWs).result = "1-0" ∧
    searchTagVal resultSeek "Result".toList pgnWs.toList = some " 1-0".toList ∧
    claimResultNorm " 1-0" = "" ∧
    ("1-0" : String) ≠ "" := by
  refine ⟨rfl, rfl, by decide, by decide⟩

/-- C2 (amended): an extracted `Result` tag value is stripped of
surrounding whitespace and has `\/` rewritten to `/`; if the normalized
form is one of the four symbols it is stored (so the four symbols pass
through unchanged and the JSON-escaped draw becomes `1/2-1/2`), and every
other value is stored as the empty string.  The embedded-PGN path stores
exactly `docResult`, which applies the same normalization. -/
theorem c2_result_normalization :
    (∀ v, v ∈ fourResults → pgnResultNorm v = v) ∧
    pgnResultNorm "1\\/2-1\\/2" = "1/2-1/2" ∧
    (∀ v, pgnResultNorm v = "" ∨ pgnResultNorm v ∈ fourResults) ∧
    (∀ d gid r, parse_game_review_page d gid = .ok r → r.result = docResult d) := by
  refine ⟨?_, by decide, ?_, ?_⟩
  · intro v hv
    simp only [fourResults, List.mem_cons, List.not_mem_nil, or_false] at hv
    rcases hv with rfl | rfl | rfl | rfl <;> decide
  · intro v
    unfold pgnResultNorm
    split
    · next hc => exact Or.inr (List.elem_iff.mp hc)
    · exact Or.inl rfl
  · intro d gid r h
    rw [parse_ok_eq d gid r h]
    rfl

/-- Witness for C2 at the symbol `"1-0"` and the empty document. -/
theorem c2_result_normalization_witness :
    pgnResultNorm "1-0" = "1-0" ∧ (emptyReviewRecord "g").result = docResult emptyDoc :=
  ⟨c2_result_normalization.1 "1-0" (by decide),
   c2_result_normalization.2.2.2 emptyDoc "g" (emptyReviewRecord "g") rfl⟩

/-- White-rating projection of the built record: the staged resolution. -/
theorem buildRecord_white_rating (d : Doc) (gid : String) (fs : List (String × JVal)) :
    (buildRecord d gid fs).white_rating =
      orZero (jsonStage ((jGetLast fs "white").getD (.jobj []))
        (rowStage d.overviewRows (attrStage d.ratingElems)).1) := rfl

/-- Black-rating projection of the built record. -/
theorem buildRecord_black_rating (d : Doc) (gid : String) (fs : List (String × JVal)) :
    (buildRecord d gid fs).black_rating =
      orZero (jsonStage ((jGetLast fs "black").getD (.jobj []))
        (rowStage d.overviewRows (attrStage d.ratingElems)).2) := rfl

/-- A non-zero white attribute rating is untouched by the row stage. -/
theorem rowStage_fst_of_ne (rows : List OverviewRow) (wb : Int × Int)
    (h : wb.1 ≠ 0) : (rowStage rows wb).1 = wb.1 := by
  unfold rowStage
  split
  · cases hrow : gameRatingRow rows with
    | none => rfl
    | some row => simp [if_neg h]
  · rfl

/-- A non-zero black attribute rating is untouched by the row stage. -/
theorem rowStage_snd_of_ne (rows : List OverviewRow) (wb : Int × Int)
    (h : wb.2 ≠ 0) : (rowStage rows wb).2 = wb.2 := by
  unfold rowStage
  split
  · cases hrow : gameRatingRow rows with
    | none => rfl
    | some row => simp [if_neg h]
  · rfl

/-- When the white rating is still zero, the row stage (if a "Game Rating"
row exists) fills it from that row, regardless of the black rating. -/
theorem rowStage_fst_of_zero (rows : List OverviewRow) (wb : Int × Int)
    (row : OverviewRow) (h1 : wb.1 = 0) (hrow : gameRatingRow rows = some row) :
    (rowStage rows wb).1 = pySafeInt row.ratingWhiteSpan := by
  unfold rowStage
  rw [if_pos (Or.inl h1), hrow]
  simp [if_pos h1]

/-- When the black rating is still zero, the row stage (if a "Game Rating"
row exists) fills it from that row, regardless of the white rating. -/
theorem rowStage_snd_of_zero (rows : List OverviewRow) (wb : Int × Int)
    (row : OverviewRow) (h2 : wb.2 = 0) (hrow : gameRatingRow rows = some row) :
    (rowStage rows wb).2 = pySafeInt row.ratingBlackSpan := by
  unfold rowStage
  rw [if_pos (Or.inr h2), hrow]
  simp [if_pos h2]

/-- The JSON stage never touches a non-zero rating. -/
theorem jsonStage_of_ne (details : JVal) (n : Int) (hn : n ≠ 0) :
    jsonStage details n = .jint n := by
  unfold jsonStage; rw [if_neg hn]

/-- Packaging `or 0` around a non-zero integer is the identity. -/
theorem orZero_jint_ne (n : Int) (hn : n ≠ 0) : orZero (.jint n) = .jint n := by
  unfold orZero jTruthy
  simp [hn]

/-- C3 counterexample: on a document with an attribute-encoded black rating
1500, a "Game Rating" row holding white text "1300" and an embedded JSON
white `gameRating` 999, the code stores white rating 1300 (the row IS
consulted because the black... because at least one rating is zero), while
the claim's both-zero rule would skip the row and store 999. -/
theorem c3_counterexample :
    (parse_game_review_page docC3 "g").map (fun r => r.white_rating) = .ok (.jint 1300) ∧
    (claimRatings docC3).1 = .jint 999 ∧
    JVal.jint 1300 ≠ JVal.jint 999 := by
  refine ⟨rfl, rfl, ?_⟩
  intro hcon
  injection hcon with hn
  omega

/-- C3 (amended): the attribute-encoded rating, when non-zero, wins for its
color; the "Game Rating" row is consulted whenever AT LEAST ONE color's
rating is still zero and fills exactly the colors still zero; the embedded
JSON `gameRating` is used only for a color still zero after the row stage;
a non-zero value is never overwritten by a later, lower-priority zero. -/
theorem c3_rating_precedence (d : Doc) (gid : String) (r : ReviewRecord)
    (h : parse_game_review_page d gid = .ok r) :
    (∀ n : Int, n ≠ 0 → (attrStage d.ratingElems).1 = n → r.white_rating = .jint n) ∧
    (∀ n : Int, n ≠ 0 → (attrStage d.ratingElems).2 = n → r.black_rating = .jint n) ∧
    ((attrStage d.ratingElems).1 = 0 → ∀ row, gameRatingRow d.overviewRows = some row →
      pySafeInt row.ratingWhiteSpan ≠ 0 →
      r.white_rating = .jint (pySafeInt row.ratingWhiteSpan)) ∧
    ((attrStage d.ratingElems).2 = 0 → ∀ row, gameRatingRow d.overviewRows = some row →
      pySafeInt row.ratingBlackSpan ≠ 0 →
      r.black_rating = .jint (pySafeInt row.ratingBlackSpan)) ∧
    ((rowStage d.overviewRows (attrStage d.ratingElems)).1 = 0 →
      r.white_rating = orZero (jsonStage (sideDetails d "white") 0)) ∧
    ((rowStage d.overviewRows (attrStage d.ratingElems)).2 = 0 →
      r.black_rating = orZero (jsonStage (sideDetails d "black") 0)) := by
  have hr := parse_ok_eq d gid r h
  subst hr
  rw [buildRecord_white_rating, buildRecord_black_rating]
  refine ⟨?_, ?_, ?_, ?_, ?_, ?_⟩
  · intro n hn ha
    rw [rowStage_fst_of_ne _ _ (ha ▸ hn), ha, jsonStage_of_ne _ _ hn, orZero_jint_ne _ hn]
  · intro n hn ha
    rw [rowStage_snd_of_ne _ _ (ha ▸ hn), ha, jsonStage_of_ne _ _ hn, orZero_jint_ne _ hn]
  · intro ha row hrow hne
    rw [rowStage_fst_of_zero _ _ _ ha hrow, jsonStage_of_ne _ _ hne, orZero_jint_ne _ hne]
  · intro ha row hrow hne
    rw [rowStage_snd_of_zero _ _ _ ha hrow, jsonStage_of_ne _ _ hne, orZero_jint_ne _ hne]
  · intro h0
    rw [h0]; rfl
  · intro h0
    rw [h0]; rfl

/-- Witness for C3 at `docC3`: the row fill for white fires because the
white attribute rating is zero, although the black one is 1500. -/
theorem c3_rating_precedence_witness :
    recC3.white_rating = .jint (pySafeInt rowC3.ratingWhiteSpan) :=
  (c3_rating_precedence docC3 "g" recC3 rfl).2.2.1 rfl rowC3 rfl (by decide)

/-- White-accuracy projection of the built record. -/
theorem buildRecord_white_accuracy (d : Doc) (gid : String) (fs : List (String × JVal)) :
    (buildRecord d gid fs).white_accuracy =
      (accScanStage d.accuracyElems (accRowStage d.overviewRows)).1 := rfl

/-- Black-accuracy projection of the built record. -/
theorem buildRecord_black_accuracy (d : Doc) (gid : String) (fs : List (String × JVal)) :
    (buildRecord d gid fs).black_accuracy =
      (accScanStage d.accuracyElems (accRowStage d.overviewRows)).2 := rfl

/-- The row stage of accuracy resolution, unfolded at a found row. -/
theorem accRowStage_eq (rows : List OverviewRow) (row : OverviewRow)
    (hrow : accuracyRow rows = some row) :
    accRowStage rows =
      if rowAccW row = 0 ∧ rowAccB row = 0 then
        match row.items with
        | i0 :: i1 :: _ => (pySafeFloat (some i0), pySafeFloat (some i1))
        | _ => (rowAccW row, rowAccB row)
      else (rowAccW row, rowAccB row) := by
  unfold accRowStage
  rw [hrow]

/-- C7: at the first overview row labeled "Accuracy", the color-specific
sub-element reads win whenever they are not both zero; only when both
remain zero is the generic item pair used, and then in document order, the
first item going to white and the second to black (provided the generic
values are not both zero as well, in which case the data-cy scan would
run). -/
theorem c7_accuracy_resolution (d : Doc) (gid : String) (r : ReviewRecord)
    (row : OverviewRow)
    (h : parse_game_review_page d gid = .ok r)
    (hrow : accuracyRow d.overviewRows = some row) :
    (¬(rowAccW row = 0 ∧ rowAccB row = 0) →
      r.white_accuracy = rowAccW row ∧ r.black_accuracy = rowAccB row) ∧
    (rowAccW row = 0 → rowAccB row = 0 →
      ∀ i0 i1 rest, row.items = i0 :: i1 :: rest →
      ¬(pySafeFloat (some i0) = 0 ∧ pySafeFloat (some i1) = 0) →
      r.white_accuracy = pySafeFloat (some i0) ∧
        r.black_accuracy = pySafeFloat (some i1)) := by
  have hr := parse_ok_eq d gid r h
  subst hr
  rw [buildRecord_white_accuracy, buildRecord_black_accuracy]
  constructor
  · intro hne
    have h1 : accRowStage d.overviewRows = (rowAccW row, rowAccB row) := by
      rw [accRowStage_eq _ _ hrow]; exact if_neg hne
    rw [h1]
    unfold accScanStage
    rw [if_neg hne]
    exact ⟨rfl, rfl⟩
  · intro h0w h0b i0 i1 rest hitems hne2
    have h1 : accRowStage d.overviewRows = (pySafeFloat (some i0), pySafeFloat (some i1)) := by
      rw [accRowStage_eq _ _ hrow, if_pos ⟨h0w, h0b⟩, hitems]
    rw [h1]
    unfold accScanStage
    rw [if_neg hne2]
    exact ⟨rfl, rfl⟩

/-- Witness for C7 at `docC7`: the "Accuracy" row has no color-specific
sub-elements, so the generic items "76.6" and "81.5" land on white and
black in document order. -/
theorem c7_accuracy_resolution_witness :
    recC7.white_accuracy = pySafeFloat (some "76.6") ∧
    recC7.black_accuracy = pySafeFloat (some "81.5") :=
  (c7_accuracy_resolution docC7 "g" recC7 rowC7 (by with_unfolding_all rfl) rfl).2
    rfl rfl "76.6" "81.5" [] rfl (by with_unfolding_all decide)

/-- Membership in the stripped list implies membership in the original. -/
theorem mem_stripL (cs : List Char) (c : Char) (h : c ∈ stripL cs) : c ∈ cs := by
  unfold stripL at h
  have h1 := List.mem_reverse.mp h
  have h2 := (List.dropWhile_sublist _).subset h1
  have h3 := List.mem_reverse.mp h2
  exact (List.dropWhile_sublist _).subset h3

/-- Generalized invariant for `lastDashSeg`: the accumulator never holds a
dash. -/
theorem lastDashSeg_aux (cs : List Char) (acc : List Char) (hacc : '-' ∉ acc) :
    '-' ∉ cs.foldl (fun acc c => if c = '-' then [] else acc ++ [c]) acc := by
  induction cs generalizing acc with
  | nil => exact hacc
  | cons c cs ih =>
    simp only [List.foldl_cons]
    by_cases hc : c = '-'
    · rw [if_pos hc]
      exact ih [] (List.not_mem_nil _)
    · rw [if_neg hc]
      refine ih _ ?_
      intro hmem
      rcases List.mem_append.mp hmem with h1 | h2
      · exact hacc h1
      · exact hc (List.mem_singleton.mp h2).symm

/-- The segment after the last dash contains no dash. -/
theorem lastDashSeg_no_dash (cs : List Char) : '-' ∉ lastDashSeg cs :=
  lastDashSeg_aux cs [] (List.not_mem_nil _)

/-- `int()` of a string with no dash cannot produce a negative value. -/
theorem pyIntParseL_nonneg (cs : List Char) (hnd : '-' ∉ cs) (n : Int)
    (hp : pyIntParseL cs = some n) : 0 ≤ n := by
  unfold pyIntParseL at hp
  have hnd2 : '-' ∉ stripL cs := fun hmem => hnd (mem_stripL _ _ hmem)
  cases hs : stripL cs with
  | nil => rw [hs] at hp; exact absurd hp (by simp)
  | cons c ds =>
    rw [hs] at hp
    have hp2 : (if c = '-' then (pyIntCore ds).map (fun m => -(Int.ofNat m))
        else if c = '+' then (pyIntCore ds).map Int.ofNat
        else (pyIntCore (c :: ds)).map Int.ofNat) = some n := hp
    have hc1 : c ≠ '-' := fun hcd => hnd2 (hs ▸ hcd ▸ List.mem_cons_self c ds)
    rw [if_neg hc1] at hp2
    by_cases hc2 : c = '+'
    · rw [if_pos hc2] at hp2
      simp only [Option.map_eq_some'] at hp2
      obtain ⟨m, hm, hmn⟩ := hp2
      exact hmn ▸ Int.ofNat_nonneg m
    · rw [if_neg hc2] at hp2
      simp only [Option.map_eq_some'] at hp2
      obtain ⟨m, hm, hmn⟩ := hp2
      exact hmn ▸ Int.ofNat_nonneg m

/-- One attribute-stage step preserves non-negativity of both ratings. -/
theorem attrStep_nonneg (wb : Int × Int) (el : RatingElem)
    (h1 : 0 ≤ wb.1) (h2 : 0 ≤ wb.2) :
    0 ≤ (attrStep wb el).1 ∧ 0 ≤ (attrStep wb el).2 := by
  unfold attrStep
  cases hp : pyIntParseL (lastDashSeg el.data_cy.toList) with
  | none => exact ⟨h1, h2⟩
  | some num =>
    have hnum : 0 ≤ num := pyIntParseL_nonneg _ (lastDashSeg_no_dash _) _ hp
    by_cases hw : el.classes.contains "review-rating-white"
    · simp only [if_pos hw]
      exact ⟨hnum, h2⟩
    · simp only [if_neg hw]
      by_cases hb : el.classes.contains "review-rating-black"
      · simp only [if_pos hb]
        exact ⟨h1, hnum⟩
      · simp only [if_neg hb]
        exact ⟨h1, h2⟩

/-- The attribute-stage fold preserves non-negativity. -/
theorem attrFold_nonneg (elems : List RatingElem) (wb : Int × Int)
    (h1 : 0 ≤ wb.1) (h2 : 0 ≤ wb.2) :
    0 ≤ (elems.foldl attrStep wb).1 ∧ 0 ≤ (elems.foldl attrStep wb).2 := by
  induction elems generalizing wb with
  | nil => exact ⟨h1, h2⟩
  | cons el elems ih =>
    simp only [List.foldl_cons]
    obtain ⟨ha, hb⟩ := attrStep_nonneg wb el h1 h2
    exact ih _ ha hb

/-- Attribute-encoded ratings are non-negative: the numeric suffix follows
the last dash of the attribute, so no minus sign can reach `int()`. -/
theorem attrStage_nonneg (elems : List RatingElem) :
    0 ≤ (attrStage elems).1 ∧ 0 ≤ (attrStage elems).2 :=
  attrFold_nonneg elems (0, 0) le_rfl le_rfl

/-- The row stage keeps the white rating non-negative when the row texts
all parse non-negatively. -/
theorem rowStage_fst_nonneg (rows : List OverviewRow) (wb : Int × Int)
    (h1 : 0 ≤ wb.1)
    (hrows : ∀ row ∈ rows, 0 ≤ pySafeInt row.ratingWhiteSpan) :
    0 ≤ (rowStage rows wb).1 := by
  unfold rowStage
  split
  · cases hrow : gameRatingRow rows with
    | none => exact h1
    | some row =>
      by_cases hz : wb.1 = 0
      · simpa [hz] using hrows row (List.mem_of_find?_eq_some hrow)
      · simpa [hz] using h1
  · exact h1

/-- The row stage keeps the black rating non-negative when the row texts
all parse non-negatively. -/
theorem rowStage_snd_nonneg (rows : List OverviewRow) (wb : Int × Int)
    (h2 : 0 ≤ wb.2)
    (hrows : ∀ row ∈ rows, 0 ≤ pySafeInt row.ratingBlackSpan) :
    0 ≤ (rowStage rows wb).2 := by
  unfold rowStage
  split
  · cases hrow : gameRatingRow rows with
    | none => exact h2
    | some row =>
      by_cases hz : wb.2 = 0
      · simpa [hz] using hrows row (List.mem_of_find?_eq_some hrow)
      · simpa [hz] using h2
  · exact h2

/-- The JSON stage yields a non-negative integer when the incoming rating
is non-negative and the side's `gameRating` is well-behaved. -/
theorem jsonStage_nonneg (details : JVal) (cur : Int) (hcur : 0 ≤ cur)
    (hok : ∀ g, details = .jobj g → ratingJsonOk ((jGetLast g "gameRating").getD .jnull)) :
    ∃ n : Int, jsonStage details cur = .jint n ∧ 0 ≤ n := by
  unfold jsonStage
  by_cases hc : cur = 0
  · rw [if_pos hc]
    cases details with
    | jobj g =>
      show ∃ n : Int, (if jTruthy ((jGetLast g "gameRating").getD .jnull) = true
          then (jGetLast g "gameRating").getD .jnull else JVal.jint 0) = .jint n ∧ 0 ≤ n
      rcases hok g rfl with hfalse | ⟨n, hval, hn⟩
      · exact ⟨0, by rw [hfalse]; simp, le_rfl⟩
      · rw [hval]
        by_cases hz : n = 0
        · exact ⟨0, by simp [jTruthy, hz], le_rfl⟩
        · exact ⟨n, by simp [jTruthy, hz], hn⟩
    | jnull => exact ⟨cur, rfl, hcur⟩
    | jbool b => exact ⟨cur, rfl, hcur⟩
    | jint m => exact ⟨cur, rfl, hcur⟩
    | jnum q => exact ⟨cur, rfl, hcur⟩
    | jstr s => exact ⟨cur, rfl, hcur⟩
    | jarr size => exact ⟨cur, rfl, hcur⟩
  · rw [if_neg hc]
    exact ⟨cur, rfl, hcur⟩

/-- Packaging `or 0` around an integer is the identity (0 is falsy and maps
to 0 anyway). -/
theorem orZero_jint (n : Int) : orZero (.jint n) = .jint n := by
  unfold orZero jTruthy
  by_cases h : n = 0
  · subst h; simp
  · simp [h]

/-- A tally read is non-negative when every tally text parses
non-negatively. -/
theorem tallyOf_nonneg (d : Doc) (ty color : String)
    (htally : ∀ k s, d.tallySel k = some s → 0 ≤ pySafeInt (some s)) :
    0 ≤ tallyOf d ty color := by
  unfold tallyOf
  cases hk : d.tallySel ("game-review-tallies-number-" ++ ty ++ "-" ++ color) with
  | none => simp [pySafeInt]
  | some s => exact htally _ _ hk

set_option maxHeartbeats 2000000 in
/-- C9 counterexample: on a markup whose white Brilliant tally element
holds the text "-3" and whose embedded JSON white `gameRating` is -5, the
returned record stores the negative tally -3 and the negative rating -5,
contradicting the claimed non-negativity invariant. -/
theorem c9_counterexample :
    (parse_game_review_page docC9 "g").map (fun r => r.Brilliant_white) = .ok (-3) ∧
    (parse_game_review_page docC9 "g").map (fun r => r.white_rating) = .ok (.jint (-5)) ∧
    (-3 : Int) < 0 ∧ (-5 : Int) < 0 := by
  exact ⟨rfl, rfl, by decide, by decide⟩

/-- C9 (amended): ratings and tallies are integers; each tally is the
failure-tolerant integer parse of its element's text and each rating source
is stored as parsed, so values can be negative exactly when a source text
or `gameRating` is negative.  Whenever every tally text parses
non-negatively, every "Game Rating" row text parses non-negatively, and
each side's `gameRating` is falsy or a non-negative integer, the stored
ratings and all twenty tally counts are non-negative. -/
theorem c9_nonneg (d : Doc) (gid : String) (r : ReviewRecord)
    (h : parse_game_review_page d gid = .ok r)
    (htally : ∀ k s, d.tallySel k = some s → 0 ≤ pySafeInt (some s))
    (hrowsW : ∀ row ∈ d.overviewRows, 0 ≤ pySafeInt row.ratingWhiteSpan)
    (hrowsB : ∀ row ∈ d.overviewRows, 0 ≤ pySafeInt row.ratingBlackSpan)
    (hjw : ratingJsonOk (sideGameRating d "white"))
    (hjb : ratingJsonOk (sideGameRating d "black")) :
    (∃ nw : Int, r.white_rating = .jint nw ∧ 0 ≤ nw) ∧
    (∃ nb : Int, r.black_rating = .jint nb ∧ 0 ≤ nb) ∧
    0 ≤ r.Brilliant_white ∧ 0 ≤ r.Brilliant_black ∧
    0 ≤ r.GreatFind_white ∧ 0 ≤ r.GreatFind_black ∧
    0 ≤ r.Book_white ∧ 0 ≤ r.Book_black ∧
    0 ≤ r.BestMove_white ∧ 0 ≤ r.BestMove_black ∧
    0 ≤ r.Excellent_white ∧ 0 ≤ r.Excellent_black ∧
    0 ≤ r.Good_white ∧ 0 ≤ r.Good_black ∧
    0 ≤ r.Inaccuracy_white ∧ 0 ≤ r.Inaccuracy_black ∧
    0 ≤ r.Mistake_white ∧ 0 ≤ r.Mistake_black ∧
    0 ≤ r.Miss_white ∧ 0 ≤ r.Miss_black ∧
    0 ≤ r.Blunder_white ∧ 0 ≤ r.Blunder_black := by
  have hr := parse_ok_eq d gid r h
  subst hr
  obtain ⟨ha1, ha2⟩ := attrStage_nonneg d.ratingElems
  have hrow1 := rowStage_fst_nonneg d.overviewRows _ ha1 hrowsW
  have hrow2 := rowStage_snd_nonneg d.overviewRows _ ha2 hrowsB
  have hokW : ∀ g, sideDetails d "white" = .jobj g →
      ratingJsonOk ((jGetLast g "gameRating").getD .jnull) := by
    intro g hg
    have hsg : sideGameRating d "white" = (jGetLast g "gameRating").getD .jnull := by
      unfold sideGameRating
      rw [hg]
    exact hsg ▸ hjw
  have hokB : ∀ g, sideDetails d "black" = .jobj g →
      ratingJsonOk ((jGetLast g "gameRating").getD .jnull) := by
    intro g hg
    have hsg : sideGameRating d "black" = (jGetLast g "gameRating").getD .jnull := by
      unfold sideGameRating
      rw [hg]
    exact hsg ▸ hjb
  obtain ⟨nw, hw, hw0⟩ := jsonStage_nonneg (sideDetails d "white") _ hrow1 hokW
  obtain ⟨nb, hb, hb0⟩ := jsonStage_nonneg (sideDetails d "black") _ hrow2 hokB
  refine ⟨⟨nw, ?_, hw0⟩, ⟨nb, ?_, hb0⟩,
    tallyOf_nonneg d "Brilliant" "white" htally,
    tallyOf_nonneg d "Brilliant" "black" htally,
    tallyOf_nonneg d "GreatFind" "white" htally,
    tallyOf_nonneg d "GreatFind" "black" htally,
    tallyOf_nonneg d "Book" "white" htally,
    tallyOf_nonneg d "Book" "black" htally,
    tallyOf_nonneg d "BestMove" "white" htally,
    tallyOf_nonneg d "BestMove" "black" htally,
    tallyOf_nonneg d "Excellent" "white" htally,
    tallyOf_nonneg d "Excellent" "black" htally,
    tallyOf_nonneg d "Good" "white" htally,
    tallyOf_nonneg d "Good" "black" htally,
    tallyOf_nonneg d "Inaccuracy" "white" htally,
    tallyOf_nonneg d "Inaccuracy" "black" htally,
    tallyOf_nonneg d "Mistake" "white" htally,
    tallyOf_nonneg d "Mistake" "black" htally,
    tallyOf_nonneg d "Miss" "white" htally,
    tallyOf_nonneg d "Miss" "black" htally,
    tallyOf_nonneg d "Blunder" "white" htally,
    tallyOf_nonneg d "Blunder" "black" htally⟩
  · rw [buildRecord_white_rating]
    show orZero (jsonStage (sideDetails d "white")
      (rowStage d.overviewRows (attrStage d.ratingElems)).1) = .jint nw
    rw [hw, orZero_jint]
  · rw [buildRecord_black_rating]
    show orZero (jsonStage (sideDetails d "black")
      (rowStage d.overviewRows (attrStage d.ratingElems)).2) = .jint nb
    rw [hb, orZero_jint]

/-- Witness for C9 at the empty document, whose queries all come back
empty, so every proviso holds vacuously. -/
theorem c9_nonneg_witness :
    ∃ nw : Int, (emptyReviewRecord "g9").white_rating = .jint nw ∧ 0 ≤ nw :=
  (c9_nonneg emptyDoc "g9" (emptyReviewRecord "g9") rfl
    (fun k s hk => by simp [emptyDoc] at hk)
    (fun row hrow => by simp [emptyDoc] at hrow)
    (fun row hrow => by simp [emptyDoc] at hrow)
    (Or.inl rfl) (Or.inl rfl)).1

instance : IsTotal PlayerSummary statsOrder :=
  ⟨fun a b => by unfold statsOrder; omega⟩

instance : IsTrans PlayerSummary statsOrder :=
  ⟨fun a b c hab hbc => by unfold statsOrder at hab hbc ⊢; omega⟩

/-- C5: the sequence returned by `get_player_stats` is sorted in descending
order of total brilliant count, ties broken by descending game count
(`statsOrder`), and the returned dicts are exactly the summaries in that
order. -/
theorem c5_ordering (games : List GameRow) :
    List.Sorted statsOrder (playerSummaries games) ∧
    get_player_stats games = (playerSummaries games).map summaryRow := by
  constructor
  · unfold playerSummaries
    exact List.sorted_insertionSort statsOrder _
  · rfl

/-- Indicator sums over a list count the rows whose string field matches. -/
theorem sum_ite_len {α : Type} (l : List α) (c : α → String) (s : String) :
    (l.map (fun a => if c a = s then (1 : Int) else 0)).sum
      = ((l.filter (fun a => c a == s)).length : Int) := by
  induction l with
  | nil => rfl
  | cons x xs ih =>
    by_cases hx : c x = s
    · simp only [List.map_cons, List.sum_cons, if_pos hx, List.filter_cons,
        (by simp [hx] : (c x == s) = true), if_true, List.length_cons, ih]
      push_cast
      ring
    · simp only [List.map_cons, List.sum_cons, if_neg hx, List.filter_cons,
        (by simp [hx] : (c x == s) = false), Bool.false_eq_true, if_false, ih]
      ring

/-- The rows of the `player_games` CTE contributed to the group of a
non-empty username `u`: the games where `u` is white (as white rows)
followed by the games where `u` is black (as black rows). -/
theorem rows_filter_eq (games : List GameRow) (u : String) (hu : u ≠ "") :
    (playerGamesRows games).filter (fun r => r.username == u) =
      (games.filter (fun g => g.white_username == u)).map toWhiteRow ++
      (games.filter (fun g => g.black_username == u)).map toBlackRow := by
  unfold playerGamesRows
  rw [List.filter_append]
  congr 1
  · rw [List.filter_map]
    show ((games.filter fun g => !(g.white_username == "")).filter
        (fun g => g.white_username == u)).map toWhiteRow = _
    rw [List.filter_filter]
    congr 1
    apply List.filter_congr
    intro g _
    by_cases hg : g.white_username = ""
    · simp [hg, beq_eq_false_iff_ne]
      exact fun h => hu h.symm
    · simp [beq_eq_false_iff_ne, hg]
  · rw [List.filter_map]
    show ((games.filter fun g => !(g.black_username == "")).filter
        (fun g => g.black_username == u)).map toBlackRow = _
    rw [List.filter_filter]
    congr 1
    apply List.filter_congr
    intro g _
    by_cases hg : g.black_username = ""
    · simp [hg, beq_eq_false_iff_ne]
      exact fun h => hu h.symm
    · simp [beq_eq_false_iff_ne, hg]

/-- The entry `find?` locates in the ordered summaries is the aggregate of
that username's group. -/
theorem find_entry_eq (games : List GameRow) (u : String) (e : PlayerSummary)
    (h : (playerSummaries games).find? (fun s => s.username == u) = some e) :
    e = aggregate (playerGamesRows games) u := by
  have hmem := List.mem_of_find?_eq_some h
  have hprop := List.find?_some h
  have hueq : e.username = u := by simpa using hprop
  unfold playerSummaries at hmem
  have hmem2 := (List.mem_insertionSort statsOrder).mp hmem
  obtain ⟨k, hk, hke⟩ := List.mem_map.mp hmem2
  have h1 : (aggregate (playerGamesRows games) k).username = k := rfl
  rw [hke] at h1
  rw [← hke, h1.symm.trans hueq]

/-- C4: a stored game contributes to `u`'s group once as a white-side row
and once as a black-side row (empty-username sides excluded); games_played
counts the contributing rows, a white-side row is a win iff the result is
"1-0" and a loss iff "0-1" (reversed for black-side rows), and a draw iff
the result is "1/2-1/2". -/
theorem c4_grouping (games : List GameRow) (u : String) (e : PlayerSummary)
    (hu : u ≠ "")
    (h : (playerSummaries games).find? (fun s => s.username == u) = some e) :
    e.games_played = ((games.filter (fun g => g.white_username == u)).length : Int)
        + ((games.filter (fun g => g.black_username == u)).length : Int) ∧
    e.wins = (((games.filter (fun g => g.white_username == u)).filter
          (fun g => g.result == "1-0")).length : Int)
        + (((games.filter (fun g => g.black_username == u)).filter
          (fun g => g.result == "0-1")).length : Int) ∧
    e.losses = (((games.filter (fun g => g.white_username == u)).filter
          (fun g => g.result == "0-1")).length : Int)
        + (((games.filter (fun g => g.black_username == u)).filter
          (fun g => g.result == "1-0")).length : Int) ∧
    e.draws = (((games.filter (fun g => g.white_username == u)).filter
          (fun g => g.result == "1/2-1/2")).length : Int)
        + (((games.filter (fun g => g.black_username == u)).filter
          (fun g => g.result == "1/2-1/2")).length : Int) := by
  have he := find_entry_eq games u e h
  subst he
  have hrs := rows_filter_eq games u hu
  refine ⟨?_, ?_, ?_, ?_⟩
  · show (((playerGamesRows games).filter (fun r => r.username == u)).length : Int) = _
    rw [hrs, List.length_append, List.length_map, List.length_map]
    push_cast
    ring
  · show (((playerGamesRows games).filter (fun r => r.username == u)).map
      (fun r => r.win)).sum = _
    rw [hrs, List.map_append, List.sum_append, List.map_map, List.map_map]
    rw [show ((fun r => r.win) ∘ toWhiteRow)
        = (fun g => if g.result = "1-0" then (1 : Int) else 0) from rfl]
    rw [show ((fun r => r.win) ∘ toBlackRow)
        = (fun g => if g.result = "0-1" then (1 : Int) else 0) from rfl]
    rw [sum_ite_len, sum_ite_len]
  · show (((playerGamesRows games).filter (fun r => r.username == u)).map
      (fun r => r.loss)).sum = _
    rw [hrs, List.map_append, List.sum_append, List.map_map, List.map_map]
    rw [show ((fun r => r.loss) ∘ toWhiteRow)
        = (fun g => if g.result = "0-1" then (1 : Int) else 0) from rfl]
    rw [show ((fun r => r.loss) ∘ toBlackRow)
        = (fun g => if g.result = "1-0" then (1 : Int) else 0) from rfl]
    rw [sum_ite_len, sum_ite_len]
  · show (((playerGamesRows games).filter (fun r => r.username == u)).map
      (fun r => r.draw)).sum = _
    rw [hrs, List.map_append, List.sum_append, List.map_map, List.map_map]
    rw [show ((fun r => r.draw) ∘ toWhiteRow)
        = (fun g => if g.result = "1/2-1/2" then (1 : Int) else 0) from rfl]
    rw [show ((fun r => r.draw) ∘ toBlackRow)
        = (fun g => if g.result = "1/2-1/2" then (1 : Int) else 0) from rfl]
    rw [sum_ite_len, sum_ite_len]

/-- Witness for C4 at the spec's two-game example, username "bob". -/
theorem c4_grouping_witness :
    (aggregate (playerGamesRows [gameA, gameB]) "bob").games_played
      = (([gameA, gameB].filter (fun g => g.white_username == "bob")).length : Int)
        + (([gameA, gameB].filter (fun g => g.black_username == "bob")).length : Int) :=
  (c4_grouping [gameA, gameB] "bob"
    (aggregate (playerGamesRows [gameA, gameB]) "bob") (by decide) rfl).1

/-- A collected group key occurs in the scanned list. -/
theorem distinctKeysAux_subset (l : List String) (seen : List String) (u : String)
    (hu : u ∈ distinctKeysAux l seen) : u ∈ l := by
  induction l generalizing seen with
  | nil => simp [distinctKeysAux] at hu
  | cons v rest ih =>
    unfold distinctKeysAux at hu
    by_cases hc : seen.contains v
    · rw [if_pos hc] at hu
      exact List.mem_cons_of_mem _ (ih _ hu)
    · rw [if_neg hc] at hu
      rcases List.mem_cons.mp hu with rfl | hmem
      · exact List.mem_cons_self _ _
      · exact List.mem_cons_of_mem _ (ih _ hmem)

/-- Every produced summary is the aggregate of a username that actually
occurs among the contributed rows. -/
theorem mem_playerSummaries (games : List GameRow) (e : PlayerSummary)
    (he : e ∈ playerSummaries games) :
    ∃ k, k ∈ (playerGamesRows games).map (fun r => r.username) ∧
      e = aggregate (playerGamesRows games) k := by
  unfold playerSummaries at he
  have he2 := (List.mem_insertionSort statsOrder).mp he
  obtain ⟨k, hk, hke⟩ := List.mem_map.mp he2
  exact ⟨k, distinctKeysAux_subset _ _ _ hk, hke.symm⟩

/-- The three per-game averages of a non-empty group, expressed through the
group's own totals and game count. -/
theorem aggregate_avgs (rows : List PGRow) (u : String)
    (hne : (((rows.filter (fun r => r.username == u)).length : Int)) ≠ 0) :
    (aggregate rows u).avg_brilliant_per_game
      = some (round2 (((aggregate rows u).total_brilliant : ℚ)
          / ((aggregate rows u).games_played : ℚ))) ∧
    (aggregate rows u).avg_great_per_game
      = some (round2 (((aggregate rows u).total_great : ℚ)
          / ((aggregate rows u).games_played : ℚ))) ∧
    (aggregate rows u).avg_blunder_per_game
      = some (round2 (((aggregate rows u).total_blunder : ℚ)
          / ((aggregate rows u).games_played : ℚ))) := by
  simp only [aggregate, if_neg hne]
  exact ⟨trivial, trivial, trivial⟩

/-- C6 counterexample: the claim promises a per-game mean for each of the
ten categories, but the SELECT list only computes them for brilliant,
great and blunder; on a one-game store, no returned row has an
`avg_book_per_game` key (nor six other per-category mean keys). -/
theorem c6_counterexample :
    ¬ (∀ row ∈ get_player_stats [gameA], ∀ c ∈ categoryNames,
        (row.lookup ("avg_" ++ c ++ "_per_game")).isSome = true) := by
  with_unfolding_all decide

/-- C6 (amended): every summary carries per-category SUMS for all ten
categories, but per-game means only for brilliant, great and blunder; each
mean is the total divided by the game count rounded to 2 decimals, the game
count of a group is at least 1, and the means are never NULL (no division
error is possible). -/
theorem c6_per_category (games : List GameRow) (e : PlayerSummary)
    (he : e ∈ playerSummaries games) :
    1 ≤ e.games_played ∧
    (∀ c ∈ categoryNames, ((summaryRow e).lookup ("total_" ++ c)).isSome = true) ∧
    e.avg_brilliant_per_game
      = some (round2 ((e.total_brilliant : ℚ) / (e.games_played : ℚ))) ∧
    e.avg_great_per_game
      = some (round2 ((e.total_great : ℚ) / (e.games_played : ℚ))) ∧
    e.avg_blunder_per_game
      = some (round2 ((e.total_blunder : ℚ) / (e.games_played : ℚ))) := by
  obtain ⟨k, hk, he2⟩ := mem_playerSummaries games e he
  subst he2
  obtain ⟨pr, hpr, hpru⟩ := List.mem_map.mp hk
  have hfil : pr ∈ (playerGamesRows games).filter (fun r => r.username == k) :=
    List.mem_filter.mpr ⟨hpr, by simp [hpru]⟩
  have hlen : 0 < ((playerGamesRows games).filter (fun r => r.username == k)).length :=
    List.length_pos.mpr (List.ne_nil_of_mem hfil)
  have hne : (((playerGamesRows games).filter (fun r => r.username == k)).length : Int) ≠ 0 := by
    exact_mod_cast Nat.pos_iff_ne_zero.mp hlen
  obtain ⟨hb, hg, hbl⟩ := aggregate_avgs (playerGamesRows games) k hne
  refine ⟨?_, ?_, hb, hg, hbl⟩
  · show (1 : Int) ≤ (((playerGamesRows games).filter (fun r => r.username == k)).length : Int)
    exact_mod_cast hlen
  · intro c hc
    fin_cases hc <;> rfl

set_option maxRecDepth 4000 in
/-- Witness for C6 at the one-game store, group "alice". -/
theorem c6_per_category_witness :
    1 ≤ (aggregate (playerGamesRows [gameA]) "alice").games_played :=
  (c6_per_category [gameA] (aggregate (playerGamesRows [gameA]) "alice")
    (by with_unfolding_all decide)).1

end ChessData
